import Mathlib

/-
  Shallow embedding of the DuoVR-Server upload/processing/streaming pipeline
  (src/server.js), covering the 360-degree classifier, MIME-type validation,
  HTTP Range parsing and the stream endpoint, the upload handlers, the
  transcode endpoint, the error handlers, and the background-processing
  status machine.

  JS numbers appearing as exact values (sizes, offsets) are embedded as
  Nat/Int; the aspect-ratio arithmetic of the 360 classifier is embedded
  in exact rational arithmetic.  A JS NaN produced by a failed parseInt is
  modelled as `none` of an `Option Int`.
-/

namespace DuoVR

/-! ### 360-degree video classification (VideoProcessingService.detect360Video) -/

/-- Projection values of the FileMetadata `projection` enum
    (server.js lines 580-583). -/
inductive Projection
  | equirectangular
  | cubemap
  | fisheye
deriving DecidableEq, Repr

/-- Result shape of `detect360Video`: `{ is360Video, projection }`.
    A JS `null` projection is modelled as `none`. -/
structure Detect360Result where
  is360Video : Bool
  projection : Option Projection
deriving DecidableEq, Repr

/-- `VideoProcessingService.detect360Video` (server.js lines 976-988).
    The JS division `width / height` and the comparisons against the
    literals `1.8` and `2.1` are embedded over the rationals. -/
def detect360Video (width height : ℚ) : Detect360Result :=
  let ar := width / height
  let is360 : Bool := decide ((1.8 : ℚ) ≤ ar) && decide (ar ≤ (2.1 : ℚ))
  { is360Video := is360
    projection := if is360 then some Projection.equirectangular else none }

/-! ### MIME-type validation -/

/-- JS `String.prototype.toLowerCase` restricted to its ASCII behaviour,
    which is total on the MIME-type strings this server compares. -/
def lowerChar (c : Char) : Char :=
  if 65 ≤ c.toNat ∧ c.toNat ≤ 90 then Char.ofNat (c.toNat + 32) else c

/-- Lower-casing of a whole string, as used by `mimetype.toLowerCase()`. -/
def jsToLower (s : String) : String :=
  String.mk (s.data.map lowerChar)

/-- Allow-list of the direct upload path, from `isValidVideoFile`
    (server.js lines 1092-1098). -/
def directValidTypes : List String :=
  ["video/mp4", "video/quicktime", "video/x-msvideo",
   "video/avi", "video/mov", "video/x-ms-wmv", "video/webm"]

/-- `isValidVideoFile` (server.js lines 1092-1098):
    `validTypes.includes(file.mimetype.toLowerCase())`. -/
def isValidVideoFile (mimetype : String) : Bool :=
  directValidTypes.contains (jsToLower mimetype)

/-- Allow-list inside `POST /files/generate-upload-url`
    (server.js lines 1323-1326).  Unlike `directValidTypes`
    it does not contain "video/x-ms-wmv". -/
def presignedValidTypes : List String :=
  ["video/mp4", "video/quicktime", "video/x-msvideo",
   "video/avi", "video/mov", "video/webm"]

/-- The pre-signed endpoint's type validation (server.js line 1327):
    `validTypes.includes(fileType.toLowerCase())`. -/
def presignedTypeOk (fileType : String) : Bool :=
  presignedValidTypes.contains (jsToLower fileType)

/-! ### Range header parsing (parseRangeHeader, server.js lines 1109-1114) -/

/-- Leading decimal digits of a character list, as consumed by JS
    `parseInt(s, 10)`; `none` models the NaN result when no digit leads. -/
def parseDigits (cs : List Char) : Option Nat :=
  let ds := cs.takeWhile Char.isDigit
  if ds.isEmpty then none
  else some (ds.foldl (fun n c => 10 * n + (c.toNat - 48)) 0)

/-- JS `parseInt(s, 10)`: skip leading whitespace, optional sign, then
    leading digits; NaN (here `none`) when no digits follow. -/
def jsParseInt (s : String) : Option Int :=
  let cs := s.data.dropWhile Char.isWhitespace
  match cs with
  | [] => none
  | c :: rest =>
    if c = '-' then (parseDigits rest).map (fun n => -(n : Int))
    else if c = '+' then (parseDigits rest).map (fun n => (n : Int))
    else (parseDigits cs).map (fun n => (n : Int))

/-- Whether `pat` occurs at the head of `cs`. -/
def matchesAt : List Char → List Char → Bool
  | [], _ => true
  | _ :: _, [] => false
  | p :: ps, c :: rest => p == c && matchesAt ps rest

/-- Removal of the first occurrence of `pat`, the effect of the JS
    `range.replace(/bytes=/, "")` (a non-global regex replace). -/
def removeFirstOcc (pat : List Char) : List Char → List Char
  | [] => []
  | c :: rest =>
    if matchesAt pat (c :: rest) then (c :: rest).drop pat.length
    else c :: removeFirstOcc pat rest

/-- JS `str.split("-")`: split at every dash, keeping empty pieces, and
    producing `[""]` on the empty string. -/
def splitDash : List Char → List (List Char)
  | [] => [[]]
  | c :: rest =>
    if c = '-' then [] :: splitDash rest
    else
      match splitDash rest with
      | [] => [[c]]
      | g :: gs => (c :: g) :: gs

/-- The `{start, end}` object returned by `parseRangeHeader`; the JS field
    `end` is called `stop` here because `end` is reserved in Lean.
    `none` components model NaN. -/
structure RangeSpec where
  start : Option Int
  stop : Option Int
deriving DecidableEq, Repr

/-- `parseRangeHeader(range, fileSize)` (server.js lines 1109-1114):
    strip the first "bytes=", split on "-", `parseInt` the first piece,
    and use the second piece when it is truthy (present and non-empty),
    else `fileSize - 1`. -/
def parseRangeHeader (range : String) (fileSize : Int) : RangeSpec :=
  let parts : List String :=
    (splitDash (removeFirstOcc ("bytes=".data) range.data)).map String.mk
  let start := jsParseInt (parts.headD "")
  let stop :=
    match parts.drop 1 with
    | [] => some (fileSize - 1)
    | p :: _ => if p = "" then some (fileSize - 1) else jsParseInt p
  { start := start, stop := stop }

/-! ### Stream endpoint (GET /files/:fileName/stream, server.js lines 1455-1538)

The handler below models the code after the quality-qualified key has been
resolved and the existence check has passed: `obj` is the byte content of
the resolved object and `fileSize` its length. -/

/-- Header rendering of a possibly-NaN number, as JS template literals
    print NaN. -/
def intFieldText (v : Option Int) : String :=
  match v with
  | some n => toString n
  | none => "NaN"

/-- `chunkSize = (end - start) + 1` (server.js line 1488); NaN operands
    give NaN. -/
def chunkLength (r : RangeSpec) : Option Int :=
  match r.start, r.stop with
  | some a, some b => some (b - a + 1)
  | _, _ => none

/-- The store read issued by `storageService.streamFile` with `{start, end}`
    options (server.js lines 869-883, 1499).  For well-formed bounds the
    store's read-stream contract returns the inclusive byte range
    start..end; a read issued with NaN options is outside that contract and
    its result is left unmodelled (`none`). -/
def storeReadRange (obj : List Nat) (r : RangeSpec) : Option (List Nat) :=
  match r.start, r.stop with
  | some a, some b => some ((obj.drop a.toNat).take (b - a + 1).toNat)
  | _, _ => none

/-- Response fields of the stream endpoint relevant to the claims. -/
structure StreamResponse where
  status : Nat
  contentRange : Option String
  contentLength : Option Int
  body : Option (List Nat)
deriving DecidableEq, Repr

/-- The 200 whole-object branch (server.js lines 1501-1512). -/
def wholeFileResponse (obj : List Nat) : StreamResponse :=
  { status := 200
    contentRange := none
    contentLength := some (obj.length : Int)
    body := some obj }

/-- The range-request logic of the stream endpoint (server.js lines
    1485-1512): any truthy Range header takes the 206 branch with the
    fields computed from `parseRangeHeader`, with no validation; an absent
    or empty (falsy) header serves the whole object with 200. -/
def streamHandler (obj : List Nat) (rangeHeader : Option String) : StreamResponse :=
  let fileSize : Int := (obj.length : Int)
  match rangeHeader with
  | none => wholeFileResponse obj
  | some range =>
    if range = "" then wholeFileResponse obj
    else
      let r := parseRangeHeader range fileSize
      { status := 206
        contentRange := some ("bytes " ++ intFieldText r.start ++ "-" ++
          intFieldText r.stop ++ "/" ++ toString fileSize)
        contentLength := chunkLength r
        body := storeReadRange obj r }

/-! ### Processing status and background processing
    (processVideoInBackground, server.js lines 1908-1984) -/

/-- The FileMetadata `processingStatus` enum (server.js lines 609-612). -/
inductive ProcStatus
  | pending
  | processing
  | completed
  | failed
deriving DecidableEq, Repr

/-- Pipeline stage order: pending before processing before the two
    terminal statuses. -/
def statusRank : ProcStatus → Nat
  | ProcStatus.pending => 0
  | ProcStatus.processing => 1
  | ProcStatus.completed => 2
  | ProcStatus.failed => 2

/-- Completed and failed are the terminal statuses. -/
def isTerminal : ProcStatus → Bool
  | ProcStatus.completed => true
  | ProcStatus.failed => true
  | _ => false

/-- A legal step of the status machine: no regression in rank and no step
    out of a terminal status. -/
def statusStep (a b : ProcStatus) : Prop :=
  statusRank a ≤ statusRank b ∧ isTerminal a = false

/-- The result object of `VideoProcessingService.extractMetadata`
    (server.js lines 888-918), restricted to the fields the claims use. -/
structure ProbeMetadata where
  duration : ℚ
  width : ℚ
  height : ℚ
deriving DecidableEq

/-- One update applied to a FileMetadata record by a background task.
    `setMetadata` carries the probe result and the projection computed from
    it (server.js lines 1931-1939); `setThumbnail` records the thumbnail
    path update (line 1959; the path string itself is irrelevant to the
    claims); `setQualityLevels` carries the new quality mapping
    (lines 2029-2035). -/
inductive RecordWrite
  | setStatus (s : ProcStatus)
  | setMetadata (m : ProbeMetadata) (proj : Option Projection)
  | setThumbnail
  | setQualityLevels (q : List (String × String))
deriving DecidableEq

/-- Branch outcomes of one run of `processVideoInBackground`: which
    optional dependency is present, which awaited operation succeeds, and
    the probe result.  Steps whose failures are caught locally
    (metadata extraction, thumbnailing) simply contribute no write. -/
structure BgEnv where
  dbConfigured : Bool
  recordFound : Bool
  setProcessingOk : Bool
  signedUrlOk : Bool
  hasDuration : Bool
  probe : Except String ProbeMetadata
  thumbnailOk : Bool
  finalUpdateOk : Bool
  recordFoundInCatch : Bool

/-- The catch clause of `processVideoInBackground` (server.js lines
    1974-1983): re-fetch the record and mark it failed, when possible. -/
def bgCatchWrites (env : BgEnv) (acc : List RecordWrite) : List RecordWrite :=
  if env.dbConfigured && env.recordFoundInCatch
  then acc ++ [RecordWrite.setStatus ProcStatus.failed]
  else acc

/-- The metadata-extraction step (server.js lines 1926-1943): skipped when
    the record already has a duration; a probe failure is caught locally
    and contributes no write. -/
def bgMetadataWrites (hasDuration : Bool) (probe : Except String ProbeMetadata) :
    List RecordWrite :=
  if hasDuration then []
  else
    match probe with
    | Except.ok m =>
        [RecordWrite.setMetadata m (detect360Video m.width m.height).projection]
    | Except.error _ => []

/-- The thumbnail step (server.js lines 1945-1965): its failure is caught
    locally and contributes no write. -/
def bgThumbWrites (thumbnailOk : Bool) : List RecordWrite :=
  if thumbnailOk then [RecordWrite.setThumbnail] else []

/-- The sequence of FileMetadata updates performed by one run of
    `processVideoInBackground` (server.js lines 1908-1984), as a function
    of the branch outcomes in `env`. -/
def processVideoWrites (env : BgEnv) : List RecordWrite :=
  if !env.dbConfigured then []
  else if !env.recordFound then []
  else if !env.setProcessingOk then bgCatchWrites env []
  else
    let acc0 := [RecordWrite.setStatus ProcStatus.processing]
    if !env.signedUrlOk then bgCatchWrites env acc0
    else
      let acc1 := acc0 ++ bgMetadataWrites env.hasDuration env.probe
      let acc2 := acc1 ++ bgThumbWrites env.thumbnailOk
      if !env.finalUpdateOk then bgCatchWrites env acc2
      else acc2 ++ [RecordWrite.setStatus ProcStatus.completed]

/-- Branch outcomes of one run of `processTranscodingJob`
    (server.js lines 1986-2063). -/
structure TranscodeEnv where
  dbConfigured : Bool
  jobFound : Bool
  transcodeOk : Bool
deriving DecidableEq

/-- FileMetadata updates performed by `processTranscodingJob`: on success
    the merged quality mapping is written (server.js lines 2029-2035); on
    failure only the TranscodingJob row is touched (lines 2052-2061).  The
    FileMetadata `processingStatus` is never written on this path. -/
def processTranscodingRecordWrites (env : TranscodeEnv)
    (existing : List (String × String)) (targetQuality outPath : String) :
    List RecordWrite :=
  if !env.dbConfigured then []
  else if !env.jobFound then []
  else if env.transcodeOk then
    [RecordWrite.setQualityLevels (existing ++ [(targetQuality, outPath)])]
  else []

/-- The processing-status values among a sequence of record writes. -/
def statusWritesOf (ws : List RecordWrite) : List ProcStatus :=
  ws.filterMap fun w =>
    match w with
    | RecordWrite.setStatus s => some s
    | _ => none

/-! ### File records and the upload handlers -/

/-- FileMetadata row, restricted to the fields the claims use. -/
structure FileRecord where
  id : Nat
  filePath : String
  qualityLevels : List (String × String)
  processingStatus : ProcStatus
  projection : Option Projection
deriving DecidableEq

/-- Lookup in the quality mapping, the JS `fileRecord.qualityLevels[quality]`
    (returns the stored key of that rendition when present). -/
def lookupQuality (qs : List (String × String)) (q : String) : Option String :=
  (qs.find? (fun p => p.1 == q)).map Prod.snd

/-- The configured upload size ceiling, `8 * 1024 * 1024 * 1024`
    (server.js line 471). -/
def MAX_FILE_SIZE : Nat := 8 * 1024 * 1024 * 1024

/-- The uploaded file object the middleware hands to the route. -/
structure UploadedFile where
  name : String
  mimetype : String
  size : Nat
  truncated : Bool
deriving DecidableEq, Repr

/-- The express-fileupload middleware as configured (server.js lines
    470-478): `limits.fileSize` is 8GB and `abortOnLimit` is `false`, so
    by the middleware's documented contract an oversized body is truncated
    to the limit and flagged `truncated`, and the request proceeds to the
    route instead of being rejected. -/
def fileUploadMiddleware (name mimetype : String) (bodySize : Nat) : UploadedFile :=
  { name := name
    mimetype := mimetype
    size := min bodySize MAX_FILE_SIZE
    truncated := decide (MAX_FILE_SIZE < bodySize) }

/-- Outcome of the direct upload route, restricted to what the claims
    observe: the HTTP status, whether the object-store write happened, and
    the created FileMetadata row. -/
structure UploadOutcome where
  status : Nat
  storeWritten : Bool
  record : Option FileRecord
deriving DecidableEq

/-- The FileMetadata row created by `POST /files/upload` (server.js lines
    1262-1279): status pending, projection from the 360 classifier, empty
    quality mapping. -/
def uploadCreateRecord (freshId : Nat) (destination : String) (m : ProbeMetadata) :
    FileRecord :=
  { id := freshId
    filePath := destination
    qualityLevels := []
    processingStatus := ProcStatus.pending
    projection := (detect360Video m.width m.height).projection }

/-- `POST /files/upload` (server.js lines 1228-1311), as a function of the
    file delivered by the middleware, the probe outcome, and whether the
    store write and the database create succeed.  The probe
    (`extractMetadata`, line 1249) is awaited inside the try block BEFORE
    the store write, so its rejection reaches the catch clause and the
    request fails with 500 with nothing written. -/
def uploadHandler (file : Option UploadedFile) (probe : Except String ProbeMetadata)
    (storeUploadOk dbConfigured dbCreateOk : Bool) (freshId : Nat)
    (destination : String) : UploadOutcome :=
  match file with
  | none => { status := 400, storeWritten := false, record := none }
  | some f =>
    if !(isValidVideoFile f.mimetype) then
      { status := 400, storeWritten := false, record := none }
    else
      match probe with
      | Except.error _ => { status := 500, storeWritten := false, record := none }
      | Except.ok m =>
        if !storeUploadOk then { status := 500, storeWritten := false, record := none }
        else
          { status := 200
            storeWritten := true
            record :=
              if dbConfigured && dbCreateOk
              then some (uploadCreateRecord freshId destination m)
              else none }

/-- Outcome of the pre-signed upload-URL route.  No bytes are received on
    this path, so `storeWritten` is false in every branch. -/
structure PresignedOutcome where
  status : Nat
  storeWritten : Bool
  destination : Option String
  record : Option FileRecord
deriving DecidableEq

/-- The FileMetadata row pre-created by `POST /files/generate-upload-url`
    (server.js lines 1360-1369): status pending, no projection. -/
def presignedCreateRecord (freshId : Nat) (destination : String) : FileRecord :=
  { id := freshId
    filePath := destination
    qualityLevels := []
    processingStatus := ProcStatus.pending
    projection := none }

/-- `POST /files/generate-upload-url` (server.js lines 1314-1391):
    requires fileName and fileType, validates the type against
    `presignedValidTypes`, rejects a truthy declared size above 8GB with
    400, and otherwise returns the destination key and pre-creates a
    pending record. -/
def generateUploadUrlHandler (fileName fileType : Option String)
    (fileSize : Option Nat) (dbConfigured dbCreateOk : Bool) (freshId : Nat)
    (destination : String) : PresignedOutcome :=
  match fileName, fileType with
  | some _, some ft =>
    if !(presignedTypeOk ft) then
      { status := 400, storeWritten := false, destination := none, record := none }
    else
      let sizeRejected : Bool :=
        match fileSize with
        | some sz => decide (MAX_FILE_SIZE < sz)
        | none => false
      if sizeRejected then
        { status := 400, storeWritten := false, destination := none, record := none }
      else
        { status := 200
          storeWritten := false
          destination := some destination
          record :=
            if dbConfigured && dbCreateOk
            then some (presignedCreateRecord freshId destination)
            else none }
  | _, _ => { status := 400, storeWritten := false, destination := none, record := none }

/-! ### Transcode endpoint (POST /files/:fileName/transcode,
    server.js lines 1609-1657) -/

/-- TranscodingJob status enum (server.js lines 685-688). -/
inductive JobStatus
  | queued
  | processing
  | completed
  | failed
deriving DecidableEq, Repr

/-- A TranscodingJob row, restricted to the fields the claims use. -/
structure TranscodingJobRec where
  id : Nat
  fileId : Nat
  targetQuality : String
  status : JobStatus
deriving DecidableEq

/-- Response of the transcode endpoint: HTTP status and the job id it
    returns immediately (none when no job was created). -/
structure TranscodeResponse where
  status : Nat
  jobId : Option Nat
deriving DecidableEq

/-- `POST /files/:fileName/transcode` (server.js lines 1609-1657): 503
    without the repository, 404 without a record, a 200 short-circuit with
    no new job when the quality already exists in the mapping, else a new
    queued TranscodingJob whose id is returned immediately. -/
def transcodeHandler (dbConfigured : Bool) (record : Option FileRecord)
    (quality : String) (jobs : List TranscodingJobRec) (freshId : Nat) :
    TranscodeResponse × List TranscodingJobRec :=
  if !dbConfigured then ({ status := 503, jobId := none }, jobs)
  else
    match record with
    | none => ({ status := 404, jobId := none }, jobs)
    | some r =>
      match lookupQuality r.qualityLevels quality with
      | some _ => ({ status := 200, jobId := none }, jobs)
      | none =>
        let job : TranscodingJobRec :=
          { id := freshId, fileId := r.id, targetQuality := quality
            status := JobStatus.queued }
        ({ status := 200, jobId := some freshId }, jobs ++ [job])

/-! ### Error responses (server.js lines 1602-1605 and 2092-2100) -/

/-- An error-path JSON body: status, the `error` field, and the optional
    `message` field. -/
structure ErrorResponse where
  status : Nat
  errorText : String
  message : Option String
deriving DecidableEq

/-- The catch clause of GET /files/:fileName/signed-url (server.js lines
    1602-1605): `res.status(500).json({ error: error.message })`, with no
    environment check; the first argument records the NODE_ENV the process
    runs under, which this code never consults. -/
def signedUrlCatchResponse (_nodeEnv : String) (errMsg : String) : ErrorResponse :=
  { status := 500, errorText := errMsg, message := none }

/-- The final error-handling middleware (server.js lines 2092-2100):
    generic error text, detail in `message` only when NODE_ENV is
    "development". -/
def errorMiddlewareResponse (nodeEnv : String) (errMsg : String) : ErrorResponse :=
  { status := 500
    errorText := "Internal server error"
    message := if nodeEnv = "development" then some errMsg else none }

instance (a b : ProcStatus) : Decidable (statusStep a b) :=
  inferInstanceAs (Decidable (statusRank a ≤ statusRank b ∧ isTerminal a = false))

/-! ## Theorems -/

/-- The is360 flag of the classifier is the decision of the closed-interval
    ratio condition. -/
theorem detect360Video_is360_eq (w h : ℚ) :
    (detect360Video w h).is360Video =
      decide ((1.8 : ℚ) ≤ w / h ∧ w / h ≤ (2.1 : ℚ)) := by
  simp only [detect360Video, Bool.decide_and]

/-- The projection of the classifier result is determined by its is360
    flag. -/
theorem detect360Video_projection_eq (w h : ℚ) :
    (detect360Video w h).projection =
      if (detect360Video w h).is360Video then some Projection.equirectangular
      else none := rfl

/-- Claim C3: for positive integer dimensions the classifier returns
    is360=true with projection equirectangular exactly when the exact
    ratio width/height lies in the closed interval from 1.8 to 2.1, and
    is360=false otherwise; in particular 3840x1920 classifies as 360
    equirectangular and 1920x1080 as not 360. -/
theorem detect360_classifier_iff (w h : ℕ) (hw : 0 < w) (hh : 0 < h) :
    ((detect360Video (w : ℚ) (h : ℚ)).is360Video = true ↔
      ((1.8 : ℚ) ≤ (w : ℚ) / (h : ℚ) ∧ (w : ℚ) / (h : ℚ) ≤ (2.1 : ℚ))) ∧
    ((detect360Video (w : ℚ) (h : ℚ)).is360Video = true →
      (detect360Video (w : ℚ) (h : ℚ)).projection = some Projection.equirectangular) ∧
    ((detect360Video (w : ℚ) (h : ℚ)).is360Video = false →
      (detect360Video (w : ℚ) (h : ℚ)).projection = none) ∧
    detect360Video (3840 : ℚ) (1920 : ℚ) =
      { is360Video := true, projection := some Projection.equirectangular } ∧
    detect360Video (1920 : ℚ) (1080 : ℚ) =
      { is360Video := false, projection := none } := by
  refine ⟨?_, ?_, ?_, ?_, ?_⟩
  · rw [detect360Video_is360_eq]
    exact Iff.intro of_decide_eq_true decide_eq_true
  · intro hv
    rw [detect360Video_projection_eq, hv]
    simp
  · intro hv
    rw [detect360Video_projection_eq, hv]
    simp
  · have h1 : (1.8 : ℚ) ≤ (3840 : ℚ) / 1920 ∧ (3840 : ℚ) / 1920 ≤ 2.1 := by norm_num
    have hv : (detect360Video (3840 : ℚ) (1920 : ℚ)).is360Video = true := by
      rw [detect360Video_is360_eq]
      exact decide_eq_true h1
    have hpr : (detect360Video (3840 : ℚ) (1920 : ℚ)).projection =
        some Projection.equirectangular := by
      rw [detect360Video_projection_eq, hv]
      simp
    calc detect360Video (3840 : ℚ) (1920 : ℚ)
        = { is360Video := (detect360Video (3840 : ℚ) (1920 : ℚ)).is360Video
            projection := (detect360Video (3840 : ℚ) (1920 : ℚ)).projection } := rfl
      _ = { is360Video := true, projection := some Projection.equirectangular } := by
          rw [hv, hpr]
  · have hlt : (1920 : ℚ) / 1080 < 1.8 := by norm_num
    have h2 : ¬ ((1.8 : ℚ) ≤ (1920 : ℚ) / 1080 ∧ (1920 : ℚ) / 1080 ≤ 2.1) :=
      fun hc => absurd hc.1 (not_le.mpr hlt)
    have hv : (detect360Video (1920 : ℚ) (1080 : ℚ)).is360Video = false := by
      rw [detect360Video_is360_eq]
      exact decide_eq_false h2
    have hpr : (detect360Video (1920 : ℚ) (1080 : ℚ)).projection = none := by
      rw [detect360Video_projection_eq, hv]
      simp
    calc detect360Video (1920 : ℚ) (1080 : ℚ)
        = { is360Video := (detect360Video (1920 : ℚ) (1080 : ℚ)).is360Video
            projection := (detect360Video (1920 : ℚ) (1080 : ℚ)).projection } := rfl
      _ = { is360Video := false, projection := none } := by
          rw [hv, hpr]

/-- Witness for C3 at the spec's concrete scenario. -/
theorem detect360_classifier_iff_witness :
    0 < 3840 ∧ 0 < 1920 ∧
    detect360Video (3840 : ℚ) (1920 : ℚ) =
      { is360Video := true, projection := some Projection.equirectangular } :=
  ⟨by decide, by decide,
    (detect360_classifier_iff 3840 1920 (by decide) (by decide)).2.2.2.1⟩

/-- Claim C10: the classifier's projection is equirectangular exactly when
    its is360 flag is set and is never cubemap or fisheye; no record
    creation or metadata-update path of the pipeline produces a cubemap or
    fisheye projection. -/
theorem projection_enum_values_unused (w h : ℚ) :
    ((detect360Video w h).projection = some Projection.equirectangular ↔
      (detect360Video w h).is360Video = true) ∧
    (detect360Video w h).projection ≠ some Projection.cubemap ∧
    (detect360Video w h).projection ≠ some Projection.fisheye ∧
    (∀ (fid : Nat) (dest : String) (m : ProbeMetadata),
      (uploadCreateRecord fid dest m).projection ≠ some Projection.cubemap ∧
      (uploadCreateRecord fid dest m).projection ≠ some Projection.fisheye) ∧
    (∀ (fid : Nat) (dest : String), (presignedCreateRecord fid dest).projection = none) ∧
    (∀ (hd : Bool) (probe : Except String ProbeMetadata),
      bgMetadataWrites hd probe = [] ∨
      ∃ m : ProbeMetadata, bgMetadataWrites hd probe =
        [RecordWrite.setMetadata m (detect360Video m.width m.height).projection]) := by
  have hproj : ∀ (a b : ℚ), (detect360Video a b).projection ≠ some Projection.cubemap ∧
      (detect360Video a b).projection ≠ some Projection.fisheye := by
    intro a b
    rw [detect360Video_projection_eq]
    cases hv : (detect360Video a b).is360Video <;> simp
  refine ⟨?_, (hproj w h).1, (hproj w h).2, ?_, ?_, ?_⟩
  · rw [detect360Video_projection_eq]
    cases hv : (detect360Video w h).is360Video <;> simp
  · intro fid dest m
    exact hproj m.width m.height
  · intro fid dest
    rfl
  · intro hd probe
    cases hd
    · cases probe with
      | ok m => exact Or.inr ⟨m, rfl⟩
      | error e => exact Or.inl rfl
    · exact Or.inl rfl

/-- Unfolding of the 206 branch of the stream handler for a truthy
    (non-empty) Range header. -/
theorem streamHandler_range_branch (obj : List Nat) (s : String) (hne : s ≠ "") :
    streamHandler obj (some s) =
      { status := 206
        contentRange := some ("bytes " ++
          intFieldText (parseRangeHeader s ((obj.length : Int))).start ++ "-" ++
          intFieldText (parseRangeHeader s ((obj.length : Int))).stop ++ "/" ++
          toString ((obj.length : Int)))
        contentLength := chunkLength (parseRangeHeader s ((obj.length : Int)))
        body := storeReadRange obj (parseRangeHeader s ((obj.length : Int))) } := by
  show (if s = "" then wholeFileResponse obj
    else
      { status := 206
        contentRange := some ("bytes " ++
          intFieldText (parseRangeHeader s ((obj.length : Int))).start ++ "-" ++
          intFieldText (parseRangeHeader s ((obj.length : Int))).stop ++ "/" ++
          toString ((obj.length : Int)))
        contentLength := chunkLength (parseRangeHeader s ((obj.length : Int)))
        body := storeReadRange obj (parseRangeHeader s ((obj.length : Int))) }) = _
  rw [if_neg hne]

/-- Claim C1: a Range header parsing to integer bounds with
    0 <= start <= end < fileSize yields a 206 response whose Content-Range
    is "bytes start-end/fileSize", whose Content-Length is end-start+1,
    and whose body is exactly the inclusive byte slice start..end of the
    object: it has length end-start+1 and reassembles the object together
    with the bytes before start and after end. -/
theorem stream_valid_range_206 (obj : List Nat) (s : String) (a b : Int)
    (hp : parseRangeHeader s (obj.length : Int) = { start := some a, stop := some b })
    (h0 : 0 ≤ a) (hab : a ≤ b) (hb : b < (obj.length : Int)) :
    streamHandler obj (some s) =
      { status := 206
        contentRange := some ("bytes " ++ toString a ++ "-" ++ toString b ++ "/" ++
          toString ((obj.length : Int)))
        contentLength := some (b - a + 1)
        body := some ((obj.drop a.toNat).take (b - a + 1).toNat) } ∧
    ((obj.drop a.toNat).take (b - a + 1).toNat).length = (b - a + 1).toNat ∧
    obj.take a.toNat ++ (obj.drop a.toNat).take (b - a + 1).toNat ++
      obj.drop (a.toNat + (b - a + 1).toNat) = obj := by
  have hne : s ≠ "" := by
    intro he
    subst he
    have hemp : parseRangeHeader "" (obj.length : Int) =
        { start := none, stop := some ((obj.length : Int) - 1) } := rfl
    rw [hemp] at hp
    simp at hp
  refine ⟨?_, ?_, ?_⟩
  · rw [streamHandler_range_branch obj s hne, hp]
    rfl
  · rw [List.length_take, List.length_drop]
    omega
  · have h2 : (obj.drop a.toNat).drop ((b - a + 1).toNat) =
        obj.drop (a.toNat + (b - a + 1).toNat) := List.drop_drop _ _ _
    rw [List.append_assoc, ← h2, List.take_append_drop, List.take_append_drop]

set_option maxRecDepth 100000 in
/-- Witness for C1 at the spec's concrete scenario: a 1000-byte object and
    the header "bytes=0-99". -/
theorem stream_valid_range_206_witness :
    streamHandler (List.range 1000) (some "bytes=0-99") =
      { status := 206
        contentRange := some ("bytes " ++ toString (0 : Int) ++ "-" ++
          toString (99 : Int) ++ "/" ++ toString (((List.range 1000).length : Int)))
        contentLength := some (99 - 0 + 1)
        body := some (((List.range 1000).drop (0 : Int).toNat).take
          ((99 - 0 + 1 : Int)).toNat) } ∧
    (((List.range 1000).drop (0 : Int).toNat).take ((99 - 0 + 1 : Int)).toNat).length =
      ((99 - 0 + 1 : Int)).toNat ∧
    (List.range 1000).take (0 : Int).toNat ++
      ((List.range 1000).drop (0 : Int).toNat).take ((99 - 0 + 1 : Int)).toNat ++
      (List.range 1000).drop ((0 : Int).toNat + ((99 - 0 + 1 : Int)).toNat) =
      List.range 1000 :=
  stream_valid_range_206 (List.range 1000) "bytes=0-99" 0 99 (by decide) (by decide)
    (by decide) (by decide)

/-- Claim C2 counterexample: the header "bytes=500-100" on a 1000-byte
    object does not parse to bounds with start <= end, yet the handler
    responds 206 with the unvalidated bounds instead of serving the whole
    object with 200. -/
theorem stream_malformed_range_not_served_whole :
    (parseRangeHeader "bytes=500-100" ((List.range 1000).length : Int)).start = some 500 ∧
    (parseRangeHeader "bytes=500-100" ((List.range 1000).length : Int)).stop = some 100 ∧
    (streamHandler (List.range 1000) (some "bytes=500-100")).status = 206 ∧
    (streamHandler (List.range 1000) (some "bytes=500-100")).status ≠ 200 ∧
    streamHandler (List.range 1000) (some "bytes=500-100") ≠
      wholeFileResponse (List.range 1000) := by decide

/-- Claim C2 amended: the handler never validates a parsed range.  Any
    truthy (non-empty) Range header takes the 206 branch, with
    Content-Length and body computed from the unvalidated parse result
    (NaN components included); the whole-object 200 branch is reserved for
    an absent or empty header. -/
theorem stream_nonempty_range_always_206 (obj : List Nat) (s : String) (hne : s ≠ "") :
    (streamHandler obj (some s)).status = 206 ∧
    (streamHandler obj (some s)).contentLength =
      chunkLength (parseRangeHeader s (obj.length : Int)) ∧
    (streamHandler obj (some s)).body =
      storeReadRange obj (parseRangeHeader s (obj.length : Int)) ∧
    streamHandler obj none = wholeFileResponse obj ∧
    streamHandler obj (some "") = wholeFileResponse obj := by
  rw [streamHandler_range_branch obj s hne]
  exact ⟨rfl, rfl, rfl, rfl, rfl⟩

/-- Witness for the amended C2 at a header that parses to NaN bounds. -/
theorem stream_nonempty_range_always_206_witness :
    "bytes=abc-def" ≠ "" ∧
    chunkLength (parseRangeHeader "bytes=abc-def" (([0, 1, 2] : List Nat).length : Int)) =
      none ∧
    ((streamHandler [0, 1, 2] (some "bytes=abc-def")).status = 206 ∧
     (streamHandler [0, 1, 2] (some "bytes=abc-def")).contentLength =
       chunkLength (parseRangeHeader "bytes=abc-def" (([0, 1, 2] : List Nat).length : Int)) ∧
     (streamHandler [0, 1, 2] (some "bytes=abc-def")).body =
       storeReadRange [0, 1, 2]
         (parseRangeHeader "bytes=abc-def" (([0, 1, 2] : List Nat).length : Int)) ∧
     streamHandler [0, 1, 2] none = wholeFileResponse [0, 1, 2] ∧
     streamHandler [0, 1, 2] (some "") = wholeFileResponse [0, 1, 2]) :=
  ⟨by decide, by decide,
    stream_nonempty_range_always_206 [0, 1, 2] "bytes=abc-def" (by decide)⟩

/-- Claim C4: with the repository configured and the record found, a
    transcode request for a quality already present in the mapping returns
    200 and leaves the job list unchanged; for an absent quality it
    appends exactly one queued job for that (record, quality) pair and
    returns 200 with the fresh job id. -/
theorem transcode_idempotent_or_queues (r : FileRecord) (q : String)
    (jobs : List TranscodingJobRec) (fid : Nat) :
    ((lookupQuality r.qualityLevels q).isSome = true →
      (transcodeHandler true (some r) q jobs fid).1.status = 200 ∧
      (transcodeHandler true (some r) q jobs fid).1.jobId = none ∧
      (transcodeHandler true (some r) q jobs fid).2 = jobs) ∧
    (lookupQuality r.qualityLevels q = none →
      (transcodeHandler true (some r) q jobs fid).1 =
        { status := 200, jobId := some fid } ∧
      (transcodeHandler true (some r) q jobs fid).2 =
        jobs ++ [{ id := fid, fileId := r.id, targetQuality := q,
                   status := JobStatus.queued }] ∧
      (transcodeHandler true (some r) q jobs fid).2.length = jobs.length + 1) := by
  constructor
  · intro hs
    obtain ⟨p, hpq⟩ := Option.isSome_iff_exists.mp hs
    simp [transcodeHandler, hpq]
  · intro hn
    simp [transcodeHandler, hn]

/-- Witness for C4: a record holding a 720p rendition; requesting 720p
    changes nothing, requesting 480p queues exactly one job. -/
theorem transcode_idempotent_or_queues_witness :
    ((transcodeHandler true
        (some { id := 1, filePath := "360-videos/a.mp4",
                qualityLevels := [("720p", "360-videos/a_720p.mp4")],
                processingStatus := ProcStatus.completed, projection := none })
        "720p" [] 5).1.status = 200 ∧
     (transcodeHandler true
        (some { id := 1, filePath := "360-videos/a.mp4",
                qualityLevels := [("720p", "360-videos/a_720p.mp4")],
                processingStatus := ProcStatus.completed, projection := none })
        "720p" [] 5).1.jobId = none ∧
     (transcodeHandler true
        (some { id := 1, filePath := "360-videos/a.mp4",
                qualityLevels := [("720p", "360-videos/a_720p.mp4")],
                processingStatus := ProcStatus.completed, projection := none })
        "720p" [] 5).2 = []) ∧
    ((transcodeHandler true
        (some { id := 1, filePath := "360-videos/a.mp4",
                qualityLevels := [("720p", "360-videos/a_720p.mp4")],
                processingStatus := ProcStatus.completed, projection := none })
        "480p" [] 5).1 = { status := 200, jobId := some 5 } ∧
     (transcodeHandler true
        (some { id := 1, filePath := "360-videos/a.mp4",
                qualityLevels := [("720p", "360-videos/a_720p.mp4")],
                processingStatus := ProcStatus.completed, projection := none })
        "480p" [] 5).2 =
       [] ++ [{ id := 5, fileId := 1, targetQuality := "480p",
                status := JobStatus.queued }] ∧
     (transcodeHandler true
        (some { id := 1, filePath := "360-videos/a.mp4",
                qualityLevels := [("720p", "360-videos/a_720p.mp4")],
                processingStatus := ProcStatus.completed, projection := none })
        "480p" [] 5).2.length = List.length ([] : List TranscodingJobRec) + 1) :=
  ⟨(transcode_idempotent_or_queues
      { id := 1, filePath := "360-videos/a.mp4",
        qualityLevels := [("720p", "360-videos/a_720p.mp4")],
        processingStatus := ProcStatus.completed, projection := none }
      "720p" [] 5).1 (by decide),
   (transcode_idempotent_or_queues
      { id := 1, filePath := "360-videos/a.mp4",
        qualityLevels := [("720p", "360-videos/a_720p.mp4")],
        processingStatus := ProcStatus.completed, projection := none }
      "480p" [] 5).2 (by decide)⟩

/-- Claim C5 counterexample: a direct upload whose probe fails is not
    treated as non-fatal.  With a valid video type and a working store,
    the probe rejection reaches the route's catch clause: the response is
    500, no object is written and no FileRecord is created. -/
theorem upload_probe_failure_fatal_cex :
    uploadHandler
        (some { name := "clip.mp4", mimetype := "video/mp4", size := 1000,
                truncated := false })
        (Except.error "unreadable source") true true true 3 "360-videos/clip.mp4" =
      { status := 500, storeWritten := false, record := none } ∧
    (uploadHandler
        (some { name := "clip.mp4", mimetype := "video/mp4", size := 1000,
                truncated := false })
        (Except.error "unreadable source") true true true 3
        "360-videos/clip.mp4").status ≠ 200 := by decide

/-- Claim C5 amended: on the direct upload path the probe runs before the
    store write, so a probe failure is fatal to the upload: for every
    uploaded file of a valid video type, a probe error yields status 500
    with no object written and no FileRecord created.  (Only the
    background-processing path treats a probe failure as non-fatal.) -/
theorem upload_probe_failure_is_fatal (f : UploadedFile) (e : String)
    (hvalid : isValidVideoFile f.mimetype = true) (ok db dbok : Bool)
    (fid : Nat) (dest : String) :
    uploadHandler (some f) (Except.error e) ok db dbok fid dest =
      { status := 500, storeWritten := false, record := none } := by
  simp [uploadHandler, hvalid]

/-- Witness for the amended C5. -/
theorem upload_probe_failure_is_fatal_witness :
    isValidVideoFile "video/mp4" = true ∧
    uploadHandler
        (some { name := "clip.mp4", mimetype := "video/mp4", size := 1000,
                truncated := false })
        (Except.error "not a video container") true true true 4 "360-videos/c.mp4" =
      { status := 500, storeWritten := false, record := none } :=
  ⟨by decide,
   upload_probe_failure_is_fatal
     { name := "clip.mp4", mimetype := "video/mp4", size := 1000, truncated := false }
     "not a video container" (by decide) true true true 4 "360-videos/c.mp4"⟩

/-- Claim C6 counterexample: a 9GB direct upload is not rejected with 400;
    the middleware (abortOnLimit false) truncates the body to the 8GB
    limit and the route proceeds to write the object and answer 200. -/
theorem oversized_direct_upload_not_rejected :
    (fileUploadMiddleware "big.mp4" "video/mp4" (9 * 1024 * 1024 * 1024)).truncated =
      true ∧
    (uploadHandler
        (some (fileUploadMiddleware "big.mp4" "video/mp4" (9 * 1024 * 1024 * 1024)))
        (Except.ok { duration := 60, width := 3840, height := 1920 }) true true true 7
        "360-videos/big.mp4").status = 200 ∧
    (uploadHandler
        (some (fileUploadMiddleware "big.mp4" "video/mp4" (9 * 1024 * 1024 * 1024)))
        (Except.ok { duration := 60, width := 3840, height := 1920 }) true true true 7
        "360-videos/big.mp4").storeWritten = true ∧
    (uploadHandler
        (some (fileUploadMiddleware "big.mp4" "video/mp4" (9 * 1024 * 1024 * 1024)))
        (Except.ok { duration := 60, width := 3840, height := 1920 }) true true true 7
        "360-videos/big.mp4").status ≠ 400 := by decide

/-- Claim C6 amended: only the pre-signed path rejects an oversized
    declared size with 400 and writes nothing.  On the direct path the
    middleware is configured with abortOnLimit false, so a body above the
    8GB ceiling is truncated to the ceiling, flagged, and the upload
    proceeds to a 200 with the object written. -/
theorem oversized_upload_paths (name mt : String) (bodySize : Nat)
    (hover : MAX_FILE_SIZE < bodySize) (hvalid : isValidVideoFile mt = true)
    (m : ProbeMetadata) (db dbok : Bool) (fid : Nat) (dest : String)
    (fn ft : String) (declSize : Nat) (hdecl : MAX_FILE_SIZE < declSize)
    (db2 dbok2 : Bool) (fid2 : Nat) (dest2 : String) :
    (fileUploadMiddleware name mt bodySize).truncated = true ∧
    (fileUploadMiddleware name mt bodySize).size = MAX_FILE_SIZE ∧
    uploadHandler (some (fileUploadMiddleware name mt bodySize)) (Except.ok m)
        true db dbok fid dest =
      { status := 200, storeWritten := true,
        record := if db && dbok then some (uploadCreateRecord fid dest m) else none } ∧
    generateUploadUrlHandler (some fn) (some ft) (some declSize) db2 dbok2 fid2 dest2 =
      { status := 400, storeWritten := false, destination := none, record := none } := by
  refine ⟨?_, ?_, ?_, ?_⟩
  · simp [fileUploadMiddleware, hover]
  · simp only [fileUploadMiddleware]
    omega
  · simp [uploadHandler, fileUploadMiddleware, hvalid]
  · cases hpt : presignedTypeOk ft <;> simp [generateUploadUrlHandler, hpt, hdecl]

/-- Witness for the amended C6 at a 9GB body and a 9GB declared size. -/
theorem oversized_upload_paths_witness :
    MAX_FILE_SIZE < 9 * 1024 * 1024 * 1024 ∧
    isValidVideoFile "video/mp4" = true ∧
    ((fileUploadMiddleware "big.mp4" "video/mp4" (9 * 1024 * 1024 * 1024)).truncated =
       true ∧
     (fileUploadMiddleware "big.mp4" "video/mp4" (9 * 1024 * 1024 * 1024)).size =
       MAX_FILE_SIZE ∧
     uploadHandler
         (some (fileUploadMiddleware "big.mp4" "video/mp4" (9 * 1024 * 1024 * 1024)))
         (Except.ok { duration := 60, width := 3840, height := 1920 }) true true true 7
         "360-videos/big.mp4" =
       { status := 200, storeWritten := true,
         record := if true && true then
           some (uploadCreateRecord 7 "360-videos/big.mp4"
             { duration := 60, width := 3840, height := 1920 }) else none } ∧
     generateUploadUrlHandler (some "big.mp4") (some "video/mp4")
         (some (9 * 1024 * 1024 * 1024)) true true 8 "360-videos/big2.mp4" =
       { status := 400, storeWritten := false, destination := none, record := none }) :=
  ⟨by decide, by decide,
   oversized_upload_paths "big.mp4" "video/mp4" (9 * 1024 * 1024 * 1024) (by decide)
     (by decide) { duration := 60, width := 3840, height := 1920 } true true 7
     "360-videos/big.mp4" "big.mp4" "video/mp4" (9 * 1024 * 1024 * 1024) (by decide)
     true true 8 "360-videos/big2.mp4"⟩

/-- Claim C7 counterexample: the MIME type video/x-ms-wmv is accepted by
    the direct upload path but rejected by generate-upload-url, so the two
    validations are not equivalent. -/
theorem presigned_rejects_wmv_direct_accepts :
    isValidVideoFile "video/x-ms-wmv" = true ∧
    presignedTypeOk "video/x-ms-wmv" = false ∧
    (generateUploadUrlHandler (some "clip.wmv") (some "video/x-ms-wmv") (some 1000)
        true true 1 "360-videos/clip.wmv").status = 400 ∧
    (uploadHandler (some (fileUploadMiddleware "clip.wmv" "video/x-ms-wmv" 1000))
        (Except.ok { duration := 60, width := 3840, height := 1920 }) true true true 1
        "360-videos/clip.wmv").status = 200 := by decide

/-- Claim C7 amended: the pre-signed allow-list is a strict subset of the
    direct one: generate-upload-url accepts a declared MIME type exactly
    when the direct path accepts it and its lowercase form is not
    video/x-ms-wmv. -/
theorem presigned_type_allowlist_strict_subset (t : String) :
    presignedTypeOk t = true ↔
      (isValidVideoFile t = true ∧ jsToLower t ≠ "video/x-ms-wmv") := by
  unfold presignedTypeOk isValidVideoFile presignedValidTypes directValidTypes
  generalize jsToLower t = u
  simp only [List.contains_cons, List.contains_nil, Bool.or_eq_true, beq_iff_eq,
    Bool.or_false]
  constructor
  · rintro (rfl | rfl | rfl | rfl | rfl | rfl) <;> exact ⟨by decide, by decide⟩
  · rintro ⟨(rfl | rfl | rfl | rfl | rfl | rfl | rfl), hne⟩
    · decide
    · decide
    · decide
    · decide
    · decide
    · exact absurd rfl hne
    · decide

/-- Claim C8 counterexample: in production mode the signed-url route's
    catch clause places the upstream error text in the client-visible
    body, so two runs differing only in the upstream error text produce
    different bodies outside development mode. -/
theorem route_catch_leaks_detail_outside_dev :
    (signedUrlCatchResponse "production" "upstream detail A").errorText =
      "upstream detail A" ∧
    (signedUrlCatchResponse "production" "upstream detail A").status = 500 ∧
    signedUrlCatchResponse "production" "upstream detail A" ≠
      signedUrlCatchResponse "production" "upstream detail B" := by decide

/-- Claim C8 amended: only errors reaching the final error-handling
    middleware are redacted outside development mode (its body is then
    independent of the error text); route-level catch clauses such as the
    signed-url handler's return the raw error message in every mode. -/
theorem error_detail_redacted_only_in_middleware (env m1 m2 : String)
    (hne : env ≠ "development") :
    errorMiddlewareResponse env m1 = errorMiddlewareResponse env m2 ∧
    errorMiddlewareResponse env m1 =
      { status := 500, errorText := "Internal server error", message := none } ∧
    errorMiddlewareResponse "development" m1 =
      { status := 500, errorText := "Internal server error", message := some m1 } ∧
    signedUrlCatchResponse env m1 =
      { status := 500, errorText := m1, message := none } := by
  simp [errorMiddlewareResponse, signedUrlCatchResponse, hne]

/-- Witness for the amended C8 in production mode. -/
theorem error_detail_redacted_only_in_middleware_witness :
    ("production" : String) ≠ "development" ∧
    (errorMiddlewareResponse "production" "boom A" =
       errorMiddlewareResponse "production" "boom B" ∧
     errorMiddlewareResponse "production" "boom A" =
       { status := 500, errorText := "Internal server error", message := none } ∧
     errorMiddlewareResponse "development" "boom A" =
       { status := 500, errorText := "Internal server error", message := some "boom A" } ∧
     signedUrlCatchResponse "production" "boom A" =
       { status := 500, errorText := "boom A", message := none }) :=
  ⟨by decide,
   error_detail_redacted_only_in_middleware "production" "boom A" "boom B" (by decide)⟩

/-- The status projection distributes over concatenation of write lists. -/
theorem statusWritesOf_append (x y : List RecordWrite) :
    statusWritesOf (x ++ y) = statusWritesOf x ++ statusWritesOf y := by
  simp [statusWritesOf, List.filterMap_append]

/-- The metadata-extraction step writes no processing status. -/
theorem statusWritesOf_bgMetadataWrites (hd : Bool) (p : Except String ProbeMetadata) :
    statusWritesOf (bgMetadataWrites hd p) = [] := by
  cases hd <;> cases p <;> simp [bgMetadataWrites, statusWritesOf]

/-- The thumbnail step writes no processing status. -/
theorem statusWritesOf_bgThumbWrites (t : Bool) :
    statusWritesOf (bgThumbWrites t) = [] := by
  cases t <;> simp [bgThumbWrites, statusWritesOf]

/-- The catch clause either writes nothing or appends a single failed
    status. -/
theorem statusWritesOf_bgCatchWrites (env : BgEnv) (acc : List RecordWrite) :
    statusWritesOf (bgCatchWrites env acc) = statusWritesOf acc ∨
    statusWritesOf (bgCatchWrites env acc) =
      statusWritesOf acc ++ [ProcStatus.failed] := by
  unfold bgCatchWrites
  split_ifs with h
  · right
    simp [statusWritesOf_append, statusWritesOf]
  · left
    rfl

/-- The possible status-write sequences of one background-processing run. -/
theorem processVideoWrites_status_cases (env : BgEnv) :
    statusWritesOf (processVideoWrites env) = [] ∨
    statusWritesOf (processVideoWrites env) = [ProcStatus.failed] ∨
    statusWritesOf (processVideoWrites env) = [ProcStatus.processing] ∨
    statusWritesOf (processVideoWrites env) =
      [ProcStatus.processing, ProcStatus.failed] ∨
    statusWritesOf (processVideoWrites env) =
      [ProcStatus.processing, ProcStatus.completed] := by
  have hmeta := statusWritesOf_bgMetadataWrites env.hasDuration env.probe
  have hthumb := statusWritesOf_bgThumbWrites env.thumbnailOk
  unfold processVideoWrites
  split_ifs with h1 h2 h3 h4 h5
  · exact Or.inl rfl
  · exact Or.inl rfl
  · rcases statusWritesOf_bgCatchWrites env [] with h | h <;> rw [h]
    · exact Or.inl rfl
    · exact Or.inr (Or.inl rfl)
  · rcases statusWritesOf_bgCatchWrites env
        [RecordWrite.setStatus ProcStatus.processing] with h | h <;> rw [h]
    · exact Or.inr (Or.inr (Or.inl rfl))
    · exact Or.inr (Or.inr (Or.inr (Or.inl rfl)))
  · rcases statusWritesOf_bgCatchWrites env
        ([RecordWrite.setStatus ProcStatus.processing] ++
          bgMetadataWrites env.hasDuration env.probe ++
          bgThumbWrites env.thumbnailOk) with h | h <;>
      rw [h] <;> rw [statusWritesOf_append, statusWritesOf_append, hmeta, hthumb]
    · exact Or.inr (Or.inr (Or.inl (by simp [statusWritesOf])))
    · exact Or.inr (Or.inr (Or.inr (Or.inl (by simp [statusWritesOf]))))
  · rw [statusWritesOf_append, statusWritesOf_append, statusWritesOf_append, hmeta,
      hthumb]
    exact Or.inr (Or.inr (Or.inr (Or.inr (by simp [statusWritesOf]))))

/-- Claim C9: over every run of the pipeline the processing status of a
    FileRecord only moves forward.  Both creation paths start the record
    at pending; every status-write sequence of the background task,
    appended to that initial pending, is monotone in stage rank and never
    steps out of a terminal status; and the transcoding task never writes
    the processing status at all. -/
theorem processing_status_never_regresses (env : BgEnv) (tenv : TranscodeEnv)
    (existing : List (String × String)) (tq op : String) (fid fid2 : Nat)
    (dest dest2 : String) (m : ProbeMetadata) :
    List.Chain' statusStep
      (ProcStatus.pending :: statusWritesOf (processVideoWrites env)) ∧
    statusWritesOf (processTranscodingRecordWrites tenv existing tq op) = [] ∧
    (uploadCreateRecord fid dest m).processingStatus = ProcStatus.pending ∧
    (presignedCreateRecord fid2 dest2).processingStatus = ProcStatus.pending := by
  refine ⟨?_, ?_, rfl, rfl⟩
  · rcases processVideoWrites_status_cases env with h | h | h | h | h <;> rw [h] <;>
      simp [List.chain'_cons, List.chain'_singleton, statusStep, statusRank, isTerminal]
  · unfold processTranscodingRecordWrites
    split_ifs <;> simp [statusWritesOf]

/-- Witness for C9 at a fully successful run. -/
theorem processing_status_never_regresses_witness :
    List.Chain' statusStep
      (ProcStatus.pending :: statusWritesOf (processVideoWrites
        { dbConfigured := true, recordFound := true, setProcessingOk := true,
          signedUrlOk := true, hasDuration := false,
          probe := Except.ok { duration := 60, width := 3840, height := 1920 },
          thumbnailOk := true, finalUpdateOk := true, recordFoundInCatch := true })) ∧
    statusWritesOf (processTranscodingRecordWrites
      { dbConfigured := true, jobFound := true, transcodeOk := true }
      [] "720p" "360-videos/a_720p.mp4") = [] ∧
    (uploadCreateRecord 1 "360-videos/a.mp4"
      { duration := 60, width := 3840, height := 1920 }).processingStatus =
      ProcStatus.pending ∧
    (presignedCreateRecord 2 "360-videos/b.mp4").processingStatus =
      ProcStatus.pending :=
  processing_status_never_regresses
    { dbConfigured := true, recordFound := true, setProcessingOk := true,
      signedUrlOk := true, hasDuration := false,
      probe := Except.ok { duration := 60, width := 3840, height := 1920 },
      thumbnailOk := true, finalUpdateOk := true, recordFoundInCatch := true }
    { dbConfigured := true, jobFound := true, transcodeOk := true }
    [] "720p" "360-videos/a_720p.mp4" 1 2 "360-videos/a.mp4" "360-videos/b.mp4"
    { duration := 60, width := 3840, height := 1920 }

/-- Witness for C10 at the dimensions 3840 by 1920. -/
theorem projection_enum_values_unused_witness :
    (detect360Video (3840 : ℚ) (1920 : ℚ)).projection ≠ some Projection.cubemap ∧
    (detect360Video (3840 : ℚ) (1920 : ℚ)).projection ≠ some Projection.fisheye ∧
    (presignedCreateRecord 2 "360-videos/b.mp4").projection = none :=
  ⟨(projection_enum_values_unused (3840 : ℚ) (1920 : ℚ)).2.1,
   (projection_enum_values_unused (3840 : ℚ) (1920 : ℚ)).2.2.1,
   (projection_enum_values_unused (3840 : ℚ) (1920 : ℚ)).2.2.2.2.1 2 "360-videos/b.mp4"⟩

end DuoVR
